import Mathlib

/-!
# Necrosis Engine: feature flags and the conditional dispatcher

A shallow embedding of `include/necrosis/features.h`,
`include/necrosis/conditional.h` and the cheat system of
`src/cheat-system/cheat.h` and `cheat.cpp`, as main.cpp uses them.

* A C++ callable that may touch the rest of the program is a state-passing
  function `σ → α × σ` over an arbitrary program state `σ` (`Work σ α`).
* The template parameter `Enabled` of `conditional<Enabled>` is an explicit
  first argument of every member.
* `if constexpr (Enabled)` selects one branch per instantiation; the `auto`
  return type is deduced from the return statement of that branch only, which
  is what `std_conditional_t` records at the level of types.
* The preprocessor state seen by `features.h` is a macro table
  `BuildConfig`; `#ifdef` only asks whether a name has an entry.
-/

namespace necrosis

/-- A niladic C++ callable (or any effectful expression): it runs against the
program state `σ` and produces a result `α` together with the new state. -/
abbrev Work (σ α : Type) : Type := σ → α × σ

/-- Test instrumentation in the style of an external call counter: every
invocation of the wrapped work item bumps the counter by one and then runs the
work item on the rest of the state. -/
def counted {σ α : Type} (w : Work σ α) : Work (Nat × σ) α :=
  fun s => ((w s.2).1, (s.1 + 1, (w s.2).2))

/-- Test instrumentation in the style of an external constructor-call log:
every call of the wrapped function appends the arguments it received to the
log and then runs the function on the rest of the state. -/
def traced {σ A α : Type} (f : A → Work σ α) : A → Work (List A × σ) α :=
  fun a s => ((f a s.2).1, (s.1 ++ [a], (f a s.2).2))

/-- The alias `std::conditional_t<B, T, F>` of the standard library: `T` when
`B` is true and `F` otherwise. -/
def std_conditional_t (B : Bool) (T F : Type) : Type :=
  match B with
  | true => T
  | false => F

namespace conditional

/-- The private member `struct empty_type` of `conditional`: it has no data
members, so it has exactly one value. -/
structure empty_type : Type where
  deriving DecidableEq, Repr

namespace empty_type

/-- The constructor `template<typename... Args> constexpr empty_type(Args&&...) {}`:
accepts any argument list, empty body. -/
def ctor {σ Args : Type} (_args : Args) : Work σ empty_type :=
  fun s => (empty_type.mk, s)

/-- The call operator
`template<typename... Args> constexpr void operator()(Args&&...) const {}`:
accepts any argument list, empty body. -/
def call {σ Args : Type} (_self : empty_type) (_args : Args) : Work σ Unit :=
  fun s => ((), s)

/-- The assignment operator
`template<typename T> constexpr empty_type& operator=(T&&) { return *this; }`:
the result is the assigned-to object itself, which is left as it was. -/
def assign {σ T : Type} (self : empty_type) (_value : T) : Work σ empty_type :=
  fun s => (self, s)

end empty_type

/-- The member `conditional<Enabled>::call(Func&& func)`:
`if constexpr (Enabled) { std::forward<Func>(func)(); }`, returning `void`. -/
def call {σ α : Type} (Enabled : Bool) (func : Work σ α) : Work σ Unit :=
  fun s =>
    if Enabled then
      ((), (func s).2)
    else
      ((), s)

/-- The member `conditional<Enabled>::call_with_return(Func&& func, DefaultType&& default_value)`:
`if constexpr (Enabled) return func(); else return default_value;`.  The
`auto` return type is the type of the one return statement that survives. -/
def call_with_return {σ R D : Type} :
    (Enabled : Bool) → Work σ R → D → Work σ (std_conditional_t Enabled R D)
  | true, func, _default_value => fun s => func s
  | false, _func, default_value => fun s => (default_value, s)

/-- The member `conditional<Enabled>::create<T>(Args&&... args)`:
`if constexpr (Enabled) return T{args...}; else return std::conditional_t<Enabled, T, empty_type>{};`.
The constructor of `T` selected by `T{args...}` is the parameter `T_ctor`. -/
def create {σ T Args : Type} (T_ctor : Args → Work σ T) :
    (Enabled : Bool) → Args → Work σ (std_conditional_t Enabled T empty_type)
  | true, args => fun s => T_ctor args s
  | false, _args => fun s => empty_type.ctor () s

/-- The member `conditional<Enabled>::enabled()`: `return Enabled;`. -/
def enabled {σ : Type} (Enabled : Bool) : Work σ Bool :=
  fun s => (Enabled, s)

end conditional

/-! ## features.h -/

namespace features

/-- The macro table the preprocessor holds when `features.h` is read: for each
name the replacement text given by the build (`-DNAME=VALUE`, as produced by
`add_compile_definitions(NAME=VALUE)`), and `none` for a name that is not
defined. -/
abbrev BuildConfig : Type := String → Option String

/-- The build configuration that defines no macro at all. -/
def no_definitions : BuildConfig := fun _ => none

/-- The configuration `cfg` extended by the definition `-Dname=value`. -/
def define (name value : String) (cfg : BuildConfig) : BuildConfig :=
  fun n => if n = name then some value else cfg n

/-- The directive `#ifdef name`: true exactly when `name` is defined, whatever
its replacement text. -/
def ifdef (cfg : BuildConfig) (name : String) : Bool :=
  (cfg name).isSome

/-- The constant `features::cheat_system_enabled`. -/
def cheat_system_enabled (cfg : BuildConfig) : Bool :=
  if ifdef cfg "NECROSIS_CHEAT_SYSTEM_ENABLED" then true else false

/-- The constant `features::debug_overlay_enabled`. -/
def debug_overlay_enabled (cfg : BuildConfig) : Bool :=
  if ifdef cfg "NECROSIS_DEBUG_OVERLAY_ENABLED" then true else false

/-- The constant `features::console_commands_enabled`. -/
def console_commands_enabled (cfg : BuildConfig) : Bool :=
  if ifdef cfg "NECROSIS_CONSOLE_COMMANDS_ENABLED" then true else false

/-- The constant `features::performance_metrics_enabled`. -/
def performance_metrics_enabled (cfg : BuildConfig) : Bool :=
  if ifdef cfg "NECROSIS_PERFORMANCE_METRICS_ENABLED" then true else false

/-- A build in which CMake passes every switch as `OFF`:
`-DNECROSIS_CHEAT_SYSTEM_ENABLED=OFF` and likewise for the other three. -/
def all_switches_off : BuildConfig :=
  define "NECROSIS_CHEAT_SYSTEM_ENABLED" "OFF"
    (define "NECROSIS_DEBUG_OVERLAY_ENABLED" "OFF"
      (define "NECROSIS_CONSOLE_COMMANDS_ENABLED" "OFF"
        (define "NECROSIS_PERFORMANCE_METRICS_ENABLED" "OFF" no_definitions)))

/-- A build in which only the debug overlay switch is passed, as `ON`. -/
def only_debug_overlay_on : BuildConfig :=
  define "NECROSIS_DEBUG_OVERLAY_ENABLED" "ON" no_definitions

end features

/-! ## Gates as types, and the shorthand of conditional.h -/

/-- The class type `conditional<Enabled>`: it has no data members and all its
member functions are static, so an instantiation is determined by its template
argument. -/
structure Gate : Type where
  Enabled : Bool
  deriving DecidableEq, Repr

/-- The template-id `necrosis::conditional<Enabled>`. -/
def gate (Enabled : Bool) : Gate :=
  Gate.mk Enabled

namespace Gate

/-- The qualified call `G::call(func)` on a gate type `G`. -/
def call {σ α : Type} (G : Gate) (func : Work σ α) : Work σ Unit :=
  conditional.call G.Enabled func

/-- The qualified call `G::call_with_return(func, default_value)`. -/
def call_with_return {σ R D : Type} (G : Gate) (func : Work σ R) (default_value : D) :
    Work σ (std_conditional_t G.Enabled R D) :=
  conditional.call_with_return G.Enabled func default_value

/-- The qualified call `G::create<T>(args...)`. -/
def create {σ T Args : Type} (G : Gate) (T_ctor : Args → Work σ T) (args : Args) :
    Work σ (std_conditional_t G.Enabled T conditional.empty_type) :=
  conditional.create T_ctor G.Enabled args

/-- The qualified call `G::enabled()`. -/
def enabled {σ : Type} (G : Gate) : Work σ Bool :=
  conditional.enabled G.Enabled

end Gate

/-- The alias template `template<bool Enabled> using when = conditional<Enabled>;`. -/
def when (Enabled : Bool) : Gate :=
  gate Enabled

namespace features

/-- Qualified name lookup `necrosis::features::identifier`: the namespace
declares four constants; any other identifier is not found and the program
is ill-formed (`none`). -/
def lookup (cfg : BuildConfig) (identifier : String) : Option Bool :=
  if identifier = "cheat_system_enabled" then some (cheat_system_enabled cfg)
  else if identifier = "debug_overlay_enabled" then some (debug_overlay_enabled cfg)
  else if identifier = "console_commands_enabled" then some (console_commands_enabled cfg)
  else if identifier = "performance_metrics_enabled" then
    some (performance_metrics_enabled cfg)
  else none

end features

/-- The macro
`#define NECROSIS_WHEN(feature) necrosis::conditional<necrosis::features::feature##_enabled>`:
the argument is pasted in front of `_enabled`, the resulting identifier is
looked up in `necrosis::features`, and its value is the template argument. -/
def NECROSIS_WHEN (cfg : features.BuildConfig) (feature : String) : Option Gate :=
  (features.lookup cfg (feature ++ "_enabled")).map gate

/-- Test instrumentation: `n` consecutive runs of one and the same call, each
on the state the previous one left, with the results collected in order. -/
def consecutive {σ α : Type} (op : Work σ α) : Nat → Work σ (List α)
  | 0 => fun s => ([], s)
  | n + 1 => fun s => ((op s).1 :: (consecutive op n (op s).2).1, (consecutive op n (op s).2).2)

end necrosis

/-! ## cheat-system/cheat.h and cheat.cpp

`std::string` is a Lean `String`, one `Char` per `char`.  The stream
`std::istringstream` is the list of characters not yet read together with its
`eofbit` and `failbit`; formatted extraction and `std::getline` follow the
standard library: a stream that is not `good()` makes either of them set
`failbit` and leave the target string as it is.  What a handler and the cheat
system can observe besides the command table is a `World`: the characters
written to `std::cout` so far and the rest of the program state. -/

namespace Necrosis

/-- The standard output stream and the remaining program state. -/
structure World (σ : Type) : Type where
  cout : String
  rest : σ

/-- The statement `std::cout << text;` (flushing is not observable here). -/
def print {σ : Type} (text : String) (w : World σ) : World σ :=
  World.mk (w.cout ++ text) w.rest

/-- The member function `std::string::empty()`. -/
def empty (str : String) : Bool :=
  str.data.isEmpty

/-- The test `str[0] == c` on a string that is not empty. -/
def front_is (str : String) (c : Char) : Bool :=
  match str.data with
  | [] => false
  | d :: _ => d == c

/-- The call `str.substr(pos)`: the characters from position `pos` on. -/
def substr (str : String) (pos : Nat) : String :=
  String.mk (str.data.drop pos)

/-- The classification `std::isspace` of the classic locale, which the stream
uses to delimit words: space, `\t`, `\n`, `\v`, `\f` and `\r`. -/
def isspace (c : Char) : Bool :=
  c == ' ' || c == '\t' || c == '\n' || c == '\x0b' || c == '\x0c' || c == '\r'

/-- A `std::istringstream`: the characters not yet read and the state bits. -/
structure istringstream : Type where
  unread : List Char
  eofbit : Bool
  failbit : Bool
  deriving DecidableEq, Repr

namespace istringstream

/-- The constructor `std::istringstream iss(str)`. -/
def init (str : String) : istringstream :=
  istringstream.mk str.data false false

/-- The member `good()`: no state bit is set. -/
def good (iss : istringstream) : Bool :=
  !iss.eofbit && !iss.failbit

/-- Whitespace skipping done before a formatted extraction: characters are
consumed while they are whitespace. -/
def skipws : List Char → List Char
  | [] => []
  | c :: cs => if isspace c then skipws cs else c :: cs

/-- The extraction loop of `operator>>` for strings: characters are appended
until the next one is whitespace or the input ends; the result is the word
and the characters left unread. -/
def read_word : List Char → List Char × List Char
  | [] => ([], [])
  | c :: cs => if isspace c then ([], c :: cs) else (c :: (read_word cs).1, (read_word cs).2)

/-- The extraction loop of `std::getline`: characters are appended until the
delimiter `\n`, which is consumed and not stored, or until the input ends; the
result is the line, the characters left unread, and whether the end of the
input was hit. -/
def read_line : List Char → List Char × List Char × Bool
  | [] => ([], [], true)
  | c :: cs =>
    if c = '\n' then ([], cs, false)
    else (c :: (read_line cs).1, (read_line cs).2.1, (read_line cs).2.2)

/-- The expression `iss >> str` for a `std::string`: on a good stream,
whitespace is skipped; hitting the end while skipping sets `eofbit` and
`failbit` and leaves `str` alone; otherwise `str` is replaced by the next
word, `eofbit` is set when the word ran to the end of the input, and
`failbit` when no character was extracted. -/
def extract (iss : istringstream) (str : String) : String × istringstream :=
  if iss.good then
    match skipws iss.unread with
    | [] => (str, istringstream.mk [] true true)
    | c :: cs =>
      (String.mk (read_word (c :: cs)).1,
        istringstream.mk (read_word (c :: cs)).2 (read_word (c :: cs)).2.isEmpty
          (read_word (c :: cs)).1.isEmpty)
  else
    (str, istringstream.mk iss.unread iss.eofbit true)

/-- The call `std::getline(iss, str)`: on a good stream `str` is replaced by
the characters up to the next `\n` or the end of the input, `eofbit` is set
when the end was hit, and `failbit` when nothing at all was extracted. -/
def getline (iss : istringstream) (str : String) : String × istringstream :=
  if iss.good then
    (String.mk (read_line iss.unread).1,
      istringstream.mk (read_line iss.unread).2.1 (read_line iss.unread).2.2
        ((read_line iss.unread).1.isEmpty && (read_line iss.unread).2.2))
  else
    (str, istringstream.mk iss.unread iss.eofbit true)

end istringstream

/-- The alias `using CheatCommand = std::function<void(const std::string&)>`. -/
abbrev CheatCommand (σ : Type) : Type := String → necrosis.Work (World σ) Unit

/-- The class `CheatSystem`: its one data member, the map `cheat_commands`
from command names to handlers, as the lookup function of the map. -/
structure CheatSystem (σ : Type) : Type where
  cheat_commands : String → Option (CheatCommand σ)

namespace CheatSystem

/-- A default-constructed `CheatSystem`: the map is empty. -/
def init {σ : Type} : CheatSystem σ :=
  CheatSystem.mk (fun _ => none)

/-- The member `RegisterCheatCommand(command, callback)`:
`cheat_commands[command] = callback;` followed by one line on `std::cout`. -/
def RegisterCheatCommand {σ : Type} (command : String) (callback : CheatCommand σ) :
    necrosis.Work (CheatSystem σ × World σ) Unit :=
  fun st =>
    ((), (CheatSystem.mk (fun k => if k = command then some callback else st.1.cheat_commands k),
          print ("[CHEAT] Registered command: " ++ command ++ "\n") st.2))

/-- Lines 19 to 29 of cheat.cpp, the parsing part of `ProcessCommand`:
`iss >> command`, then `std::getline(iss, args)`, then the removal of one
leading space from `args`.  The result is the pair of `command` and `args`. -/
def parse_command (input : String) : String × String :=
  let iss := istringstream.init input
  let command := (iss.extract "").1
  let iss1 := (iss.extract "").2
  let args := (iss1.getline "").1
  let args1 := if !empty args && front_is args ' ' then substr args 1 else args
  (command, args1)

/-- The member `ProcessCommand(input)`: nothing at all on empty input;
otherwise the parsed command is looked up, and either the handler found is
announced on `std::cout` and run on the arguments, or the command is reported
as unknown. -/
def ProcessCommand {σ : Type} (input : String) :
    necrosis.Work (CheatSystem σ × World σ) Unit :=
  fun st =>
    if empty input then
      ((), st)
    else
      match st.1.cheat_commands (parse_command input).1 with
      | some callback =>
        ((), (st.1,
          (callback (parse_command input).2
            (print ("[CHEAT] Executing: " ++ (parse_command input).1 ++ " with args: \x27"
              ++ (parse_command input).2 ++ "\x27\n") st.2)).2))
      | none =>
        ((), (st.1, print ("[CHEAT] Unknown command: " ++ (parse_command input).1 ++ "\n") st.2))

end CheatSystem

/-- The handler main.cpp registers under `god_mode`. -/
def god_mode {σ : Type} : CheatCommand σ :=
  fun args w => ((), print ("[CHEAT] God mode activated! Args: " ++ args ++ "\n") w)

/-- The handler main.cpp registers under `spawn_item`. -/
def spawn_item {σ : Type} : CheatCommand σ :=
  fun args w => ((), print ("[CHEAT] Spawning item: " ++ args ++ "\n") w)

/-- The cheat system of main.cpp after its two registrations, lines 33 to 42,
started on a given world. -/
def main_cheat_system {σ : Type} (w : World σ) : CheatSystem σ × World σ :=
  (CheatSystem.RegisterCheatCommand "spawn_item" spawn_item
    (CheatSystem.RegisterCheatCommand "god_mode" god_mode (CheatSystem.init, w)).2).2

/-- Test instrumentation: the handler `callback` registered under `name`,
wrapped so that every invocation appends `name` and the arguments received to
a log kept in the program state before running `callback` itself. -/
def traced_command {σ : Type} (name : String) (callback : CheatCommand σ) :
    CheatCommand (List (String × String) × σ) :=
  fun args w =>
    ((), World.mk (callback args (World.mk w.cout w.rest.2)).2.cout
          (w.rest.1 ++ [(name, args)], (callback args (World.mk w.cout w.rest.2)).2.rest))

/-- Test instrumentation: the cheat system with every registered handler
wrapped by `traced_command` under its own name. -/
def traced_system {σ : Type} (self : CheatSystem σ) :
    CheatSystem (List (String × String) × σ) :=
  CheatSystem.mk (fun k => (self.cheat_commands k).map (traced_command k))

/-- How the statements about dispatch read an input line: `input` is the
whitespace `ws`, followed by its first whitespace-delimited token `t` (not
empty, free of whitespace), followed by `rest`, which is empty or starts with
a whitespace character. -/
def first_token_split (input ws t rest : List Char) : Prop :=
  input = ws ++ t ++ rest ∧ (∀ c ∈ ws, isspace c = true) ∧ t ≠ [] ∧
    (∀ c ∈ t, isspace c = false) ∧ rest.head?.all isspace = true

instance (input ws t rest : List Char) : Decidable (first_token_split input ws t rest) := by
  unfold first_token_split
  infer_instance

/-- The text that follows a token up to the next newline or the end of the
input. -/
def text_up_to_newline (rest : List Char) : List Char :=
  rest.takeWhile (fun c => c != '\n')

/-- A text with exactly one leading space removed, if it starts with one. -/
def remove_one_leading_space : List Char → List Char
  | [] => []
  | c :: cs => if c = ' ' then cs else c :: cs

/-- The arguments a handler is to receive when `rest` follows its command
name on the input line. -/
def expected_args (rest : List Char) : String :=
  String.mk (remove_one_leading_space (text_up_to_newline rest))

end Necrosis

namespace necrosis

/-! ## Theorems -/

/-- C1: for every work item `w`, run behind an invocation counter,
`conditional<false>::call(w)` leaves the counter and the whole program state
unchanged (so `w` is never invoked), and `conditional<true>::call(w)` raises
the counter by exactly one, leaves the state `w` leaves, and returns nothing
(the result of `w` is discarded); without the counter, the disabled call is
the identity on the state and the enabled call has exactly the effect of one
run of `w`. -/
theorem C1_call_gates_work {σ α : Type} (w : Work σ α) (n : Nat) (s : σ) :
    conditional.call false (counted w) (n, s) = ((), (n, s)) ∧
    conditional.call true (counted w) (n, s) = ((), (n + 1, (w s).2)) ∧
    conditional.call false w s = ((), s) ∧
    conditional.call true w s = ((), (w s).2) := by
  refine ⟨rfl, rfl, rfl, rfl⟩

/-- C2: for every work item `w` and fallback `f`, `call_with_return(w, f)`
returns the value of `w()` (and leaves the state `w` leaves) when `Enabled` is
true, and returns `f` (state untouched) when `Enabled` is false; with `w`
returning 42 and `f = 0` it returns 42 when enabled and 0 when disabled. -/
theorem C2_call_with_return_selects {σ R D : Type} (w : Work σ R) (f : D) (s : σ) :
    conditional.call_with_return true w f s = w s ∧
    conditional.call_with_return false w f s = (f, s) ∧
    conditional.call_with_return true (fun t : σ => ((42 : Int), t)) (0 : Int) s = ((42 : Int), s) ∧
    conditional.call_with_return false (fun t : σ => ((42 : Int), t)) (0 : Int) s = ((0 : Int), s) := by
  refine ⟨rfl, rfl, rfl, rfl⟩

/-- C3: in `call_with_return(w, f)` with `w` run behind an invocation counter,
a disabled gate leaves the counter where it was (at 0 when it started at 0)
and yields the fallback, an enabled gate raises the counter by exactly one and
yields the value of `w`, and the enabled result is the same for any two
fallbacks, of whatever types. -/
theorem C3_call_with_return_one_branch {σ R D D2 : Type} (w : Work σ R) (f : D) (f2 : D2)
    (n : Nat) (s : σ) :
    conditional.call_with_return false (counted w) f (n, s) = (f, (n, s)) ∧
    conditional.call_with_return false (counted w) f (0, s) = (f, (0, s)) ∧
    conditional.call_with_return true (counted w) f (n, s) = ((w s).1, (n + 1, (w s).2)) ∧
    (conditional.call_with_return true w f s : R × σ) = conditional.call_with_return true w f2 s := by
  refine ⟨rfl, rfl, rfl, rfl⟩

/-- C4: for every type `T`, constructor of `T` and argument list,
`conditional<false>::create<T>(args...)` leaves the log of constructor calls
and the program state unchanged (the log stays empty when it started empty),
its result type is `empty_type` whatever `T` is, and the value returned is
the one inert placeholder, the same for any two argument lists. -/
theorem C4_disabled_create_is_inert {σ T Args : Type} (T_ctor : Args → Work σ T)
    (args args2 : Args) (log : List Args) (s : σ) :
    conditional.create (traced T_ctor) false args (log, s) = (conditional.empty_type.mk, (log, s)) ∧
    conditional.create (traced T_ctor) false args ([], s) = (conditional.empty_type.mk, ([], s)) ∧
    std_conditional_t false T conditional.empty_type = conditional.empty_type ∧
    conditional.create T_ctor false args s = conditional.create T_ctor false args2 s := by
  refine ⟨rfl, rfl, rfl, rfl⟩

/-- C5: the placeholder `p` returned by a disabled `create` is absorbing: for
every argument list, calling `p` returns nothing and leaves the program state
unchanged; for every value `v` of any type, assigning `v` to `p` leaves the
state unchanged and yields `p` itself, which is still the inert placeholder;
and a placeholder can be constructed from any argument list, with no effect
on the state. -/
theorem C5_placeholder_absorbs {σ T Args A V : Type} (T_ctor : Args → Work σ T)
    (args : Args) (s0 : σ) (a : A) (v : V) (s : σ) :
    conditional.empty_type.call (conditional.create T_ctor false args s0).1 a s = ((), s) ∧
    conditional.empty_type.assign (conditional.create T_ctor false args s0).1 v s
      = ((conditional.create T_ctor false args s0).1, s) ∧
    (conditional.empty_type.assign (conditional.create T_ctor false args s0).1 v s).1
      = conditional.empty_type.mk ∧
    conditional.empty_type.ctor a s = (conditional.empty_type.mk, s) := by
  refine ⟨rfl, rfl, rfl, rfl⟩

/-- C6: for every type `T`, constructor of `T` and argument list `args`,
`conditional<true>::create<T>(args...)` appends exactly one entry, `args`
itself, to the log of constructor calls, returns the very object and state the
constructor produced from `args`, and its result type is `T`. -/
theorem C6_enabled_create_constructs {σ T Args : Type} (T_ctor : Args → Work σ T)
    (args : Args) (log : List Args) (s : σ) :
    conditional.create (traced T_ctor) true args (log, s)
      = ((T_ctor args s).1, (log ++ [args], (T_ctor args s).2)) ∧
    conditional.create T_ctor true args s = T_ctor args s ∧
    std_conditional_t true T conditional.empty_type = T := by
  refine ⟨rfl, rfl, rfl⟩

/-- C7: for both values of `Enabled`, `conditional<Enabled>::enabled()`
returns exactly `Enabled` and leaves the program state unchanged. -/
theorem C7_enabled_returns_flag {σ : Type} (Enabled : Bool) (s : σ) :
    conditional.enabled Enabled s = (Enabled, s) ∧
    conditional.enabled true s = (true, s) ∧
    conditional.enabled false s = (false, s) := by
  refine ⟨rfl, rfl, rfl⟩

/-- C8: for every build configuration, each of the four flags is exactly true
or false, and a flag whose switch `NECROSIS_<NAME>_ENABLED` has no definition
in the configuration is false. -/
theorem C8_absent_switch_is_false (cfg : features.BuildConfig) :
    ((features.cheat_system_enabled cfg = true ∨ features.cheat_system_enabled cfg = false) ∧
      (cfg "NECROSIS_CHEAT_SYSTEM_ENABLED" = none → features.cheat_system_enabled cfg = false)) ∧
    ((features.debug_overlay_enabled cfg = true ∨ features.debug_overlay_enabled cfg = false) ∧
      (cfg "NECROSIS_DEBUG_OVERLAY_ENABLED" = none → features.debug_overlay_enabled cfg = false)) ∧
    ((features.console_commands_enabled cfg = true ∨
        features.console_commands_enabled cfg = false) ∧
      (cfg "NECROSIS_CONSOLE_COMMANDS_ENABLED" = none →
        features.console_commands_enabled cfg = false)) ∧
    ((features.performance_metrics_enabled cfg = true ∨
        features.performance_metrics_enabled cfg = false) ∧
      (cfg "NECROSIS_PERFORMANCE_METRICS_ENABLED" = none →
        features.performance_metrics_enabled cfg = false)) := by
  refine ⟨⟨?_, ?_⟩, ⟨?_, ?_⟩, ⟨?_, ?_⟩, ⟨?_, ?_⟩⟩
  · cases features.cheat_system_enabled cfg <;> simp
  · intro h
    simp [features.cheat_system_enabled, features.ifdef, h]
  · cases features.debug_overlay_enabled cfg <;> simp
  · intro h
    simp [features.debug_overlay_enabled, features.ifdef, h]
  · cases features.console_commands_enabled cfg <;> simp
  · intro h
    simp [features.console_commands_enabled, features.ifdef, h]
  · cases features.performance_metrics_enabled cfg <;> simp
  · intro h
    simp [features.performance_metrics_enabled, features.ifdef, h]

/-- Witness for C8: in the build that passes only the debug overlay switch, the
other three switches are absent and their flags are false. -/
theorem C8_absent_switch_is_false_witness :
    features.only_debug_overlay_on "NECROSIS_CHEAT_SYSTEM_ENABLED" = none ∧
    features.cheat_system_enabled features.only_debug_overlay_on = false ∧
    features.only_debug_overlay_on "NECROSIS_CONSOLE_COMMANDS_ENABLED" = none ∧
    features.console_commands_enabled features.only_debug_overlay_on = false ∧
    features.only_debug_overlay_on "NECROSIS_PERFORMANCE_METRICS_ENABLED" = none ∧
    features.performance_metrics_enabled features.only_debug_overlay_on = false ∧
    features.debug_overlay_enabled features.only_debug_overlay_on = true :=
  ⟨by decide,
   (C8_absent_switch_is_false features.only_debug_overlay_on).1.2 (by decide),
   by decide,
   (C8_absent_switch_is_false features.only_debug_overlay_on).2.2.1.2 (by decide),
   by decide,
   (C8_absent_switch_is_false features.only_debug_overlay_on).2.2.2.2 (by decide),
   by decide⟩

/-- C9: in the build where CMake passes all four switches as `OFF`, each
switch is defined with replacement text `OFF`, and every one of the four flags
nevertheless resolves to true. -/
theorem C9_off_switch_resolves_true :
    features.all_switches_off "NECROSIS_CHEAT_SYSTEM_ENABLED" = some "OFF" ∧
    features.cheat_system_enabled features.all_switches_off = true ∧
    features.all_switches_off "NECROSIS_DEBUG_OVERLAY_ENABLED" = some "OFF" ∧
    features.debug_overlay_enabled features.all_switches_off = true ∧
    features.all_switches_off "NECROSIS_CONSOLE_COMMANDS_ENABLED" = some "OFF" ∧
    features.console_commands_enabled features.all_switches_off = true ∧
    features.all_switches_off "NECROSIS_PERFORMANCE_METRICS_ENABLED" = some "OFF" ∧
    features.performance_metrics_enabled features.all_switches_off = true := by
  decide

/-- C10 fails as stated: a work item of result type `int` and a fallback of
type `std::string` have no common type, and `call_with_return` is accepted all
the same: the enabled call has result type `int` and yields the 42 of the
work item, the disabled call has result type `std::string` and yields the
fallback. -/
theorem C10_mismatched_types_accepted :
    std_conditional_t true Int String = Int ∧
    (conditional.call_with_return true (fun t : Unit => ((42 : Int), t)) "none" () : Int × Unit)
      = ((42 : Int), ()) ∧
    std_conditional_t false Int String = String ∧
    (conditional.call_with_return false (fun t : Unit => ((42 : Int), t)) "none" ()
        : String × Unit)
      = ("none", ()) :=
  ⟨rfl, rfl, rfl, rfl⟩

/-- C10, amended: whatever the result type `R` of the work item and the type
`D` of the fallback are, the result type of `call_with_return` is that of the
live branch alone: `R` when enabled, with the value of the work item, and `D`
when disabled, with the fallback; and when work item and fallback have one
and the same type, the result type is that common type for both values of
`Enabled`. -/
theorem C10_result_type_of_live_branch {σ R D : Type} (Enabled : Bool) (w : Work σ R)
    (f : D) (s : σ) :
    std_conditional_t true R D = R ∧
    (conditional.call_with_return true w f s : R × σ) = w s ∧
    std_conditional_t false R D = D ∧
    (conditional.call_with_return false w f s : D × σ) = (f, s) ∧
    std_conditional_t Enabled D D = D := by
  refine ⟨rfl, rfl, rfl, rfl, ?_⟩
  cases Enabled <;> rfl

/-- C11: the shorthand adds no semantics: for each of the four short flag
names, `NECROSIS_WHEN(name)` is the gate `conditional<features::name_enabled>`;
for every boolean `E`, `when<E>` is `conditional<E>`; and `call`,
`call_with_return`, `create` and `enabled` reached through `when<E>` give
exactly the results of the members of `conditional<E>`; the two calls
`NECROSIS_WHEN(debug_overlay)::call(w)` and
`NECROSIS_WHEN(console_commands)::call(w)` of main.cpp are the calls of
`conditional<...>::call(w)` on the two flags. -/
theorem C11_shorthand_adds_nothing {σ α R D T Args : Type} (cfg : features.BuildConfig)
    (E : Bool) (w : Work σ α) (wr : Work σ R) (f : D) (T_ctor : Args → Work σ T)
    (args : Args) (s : σ) :
    NECROSIS_WHEN cfg "cheat_system" = some (gate (features.cheat_system_enabled cfg)) ∧
    NECROSIS_WHEN cfg "debug_overlay" = some (gate (features.debug_overlay_enabled cfg)) ∧
    NECROSIS_WHEN cfg "console_commands"
      = some (gate (features.console_commands_enabled cfg)) ∧
    NECROSIS_WHEN cfg "performance_metrics"
      = some (gate (features.performance_metrics_enabled cfg)) ∧
    when E = gate E ∧
    (when E).call w s = conditional.call E w s ∧
    (when E).call_with_return wr f s = conditional.call_with_return E wr f s ∧
    (when E).create T_ctor args s = conditional.create T_ctor E args s ∧
    (when E).enabled s = conditional.enabled E s ∧
    (NECROSIS_WHEN cfg "debug_overlay").map (fun G => G.call w s)
      = some (conditional.call (features.debug_overlay_enabled cfg) w s) ∧
    (NECROSIS_WHEN cfg "console_commands").map (fun G => G.call w s)
      = some (conditional.call (features.console_commands_enabled cfg) w s) := by
  refine ⟨rfl, rfl, rfl, rfl, rfl, rfl, rfl, rfl, rfl, rfl, rfl⟩

/-- Results of `n` consecutive runs of a call whose result does not depend on
the state: `n` copies of the first result. -/
theorem consecutive_results_of_deterministic {σ α : Type} (op : Work σ α)
    (h : ∀ s1 s2 : σ, (op s1).1 = (op s2).1) (n : Nat) (s s0 : σ) :
    (consecutive op n s).1 = List.replicate n (op s0).1 := by
  induction n generalizing s with
  | zero => rfl
  | succ n ih =>
    simp only [consecutive, List.replicate_succ]
    rw [ih (op s).2, h s s0]

/-- Counter after `n` consecutive enabled calls of a counted work item. -/
theorem consecutive_call_true_counter {σ α : Type} (w : Work σ α) (n k : Nat) (s : σ) :
    (consecutive (conditional.call true (counted w)) n (k, s)).2.1 = k + n := by
  induction n generalizing k s with
  | zero => rfl
  | succ n ih =>
    simp only [consecutive]
    have hstep : (conditional.call true (counted w) (k, s)).2 = (k + 1, (w s).2) := rfl
    rw [hstep, ih]
    omega

/-- State after `n` consecutive calls of an operation that leaves the state
unchanged. -/
theorem consecutive_state_of_inert {σ α : Type} (op : Work σ α)
    (h : ∀ s : σ, (op s).2 = s) (n : Nat) (s : σ) :
    (consecutive op n s).2 = s := by
  induction n generalizing s with
  | zero => rfl
  | succ n ih =>
    simp only [consecutive]
    rw [h s, ih]

/-- C12: the gate has no hidden state: for every flag value and every `n`, `n`
consecutive calls of `enabled()` return `n` times the flag and leave the state
unchanged; `n` consecutive calls of `call(w)`, with `w` behind an invocation
counter, raise the counter by exactly `n` when enabled and leave counter and
state unchanged when disabled; and when the result of `w` does not depend on
the state, `n` consecutive calls of `call_with_return(w, f)` return `n` times
the value of the first call. -/
theorem C12_no_hidden_state {σ α R D : Type} (E : Bool) (w : Work σ α) (wr : Work σ R)
    (f : D) (n k : Nat) (s : σ) :
    consecutive (conditional.enabled E) n s = (List.replicate n E, s) ∧
    (consecutive (conditional.call true (counted w)) n (k, s)).2.1 = k + n ∧
    (consecutive (conditional.call false (counted w)) n (k, s)).2 = (k, s) ∧
    ((∀ s1 s2 : σ, (wr s1).1 = (wr s2).1) →
      (consecutive (conditional.call_with_return E wr f) n s).1
        = List.replicate n (conditional.call_with_return E wr f s).1) := by
  refine ⟨?_, consecutive_call_true_counter w n k s, ?_, ?_⟩
  · have h1 := consecutive_results_of_deterministic (@conditional.enabled σ E)
      (fun _ _ => rfl) n s s
    have h2 := consecutive_state_of_inert (@conditional.enabled σ E) (fun _ => rfl) n s
    exact Prod.ext h1 h2
  · exact consecutive_state_of_inert (conditional.call false (counted w)) (fun _ => rfl) n (k, s)
  · intro hdet
    cases E
    · exact consecutive_results_of_deterministic (conditional.call_with_return false wr f)
        (fun _ _ => rfl) n s s
    · exact consecutive_results_of_deterministic (conditional.call_with_return true wr f)
        (fun s1 s2 => hdet s1 s2) n s s

/-- Witness for C12: a work item that always returns 7 and counts its own runs
in the state, called three times through an enabled gate from state 0. -/
theorem C12_no_hidden_state_witness :
    (∀ s1 s2 : Nat, ((fun t : Nat => ((7 : Int), t + 1)) s1).1
      = ((fun t : Nat => ((7 : Int), t + 1)) s2).1) ∧
    (consecutive (conditional.call_with_return true (fun t : Nat => ((7 : Int), t + 1))
        (0 : Int)) 3 0).1
      = List.replicate 3
          (conditional.call_with_return true (fun t : Nat => ((7 : Int), t + 1)) (0 : Int) 0).1 :=
  ⟨fun _ _ => rfl,
   (C12_no_hidden_state true (fun t : Nat => ((), t)) (fun t : Nat => ((7 : Int), t + 1))
      (0 : Int) 3 0 0).2.2.2 (fun _ _ => rfl)⟩

/-- C13: each of the four flags depends only on its own switch: two build
configurations that agree on the switch `NECROSIS_<NAME>_ENABLED` give the
flag `<name>_enabled` the same value, whatever they say about any other
name. -/
theorem C13_flag_depends_on_own_switch (c1 c2 : features.BuildConfig) :
    (c1 "NECROSIS_CHEAT_SYSTEM_ENABLED" = c2 "NECROSIS_CHEAT_SYSTEM_ENABLED" →
      features.cheat_system_enabled c1 = features.cheat_system_enabled c2) ∧
    (c1 "NECROSIS_DEBUG_OVERLAY_ENABLED" = c2 "NECROSIS_DEBUG_OVERLAY_ENABLED" →
      features.debug_overlay_enabled c1 = features.debug_overlay_enabled c2) ∧
    (c1 "NECROSIS_CONSOLE_COMMANDS_ENABLED" = c2 "NECROSIS_CONSOLE_COMMANDS_ENABLED" →
      features.console_commands_enabled c1 = features.console_commands_enabled c2) ∧
    (c1 "NECROSIS_PERFORMANCE_METRICS_ENABLED" = c2 "NECROSIS_PERFORMANCE_METRICS_ENABLED" →
      features.performance_metrics_enabled c1 = features.performance_metrics_enabled c2) := by
  refine ⟨?_, ?_, ?_, ?_⟩
  · intro h
    simp [features.cheat_system_enabled, features.ifdef, h]
  · intro h
    simp [features.debug_overlay_enabled, features.ifdef, h]
  · intro h
    simp [features.console_commands_enabled, features.ifdef, h]
  · intro h
    simp [features.performance_metrics_enabled, features.ifdef, h]

/-- Witness for C13: the build with all four switches `OFF` and the build that
differs from it only in passing the debug overlay switch as `ON` agree on the
other three switches, and give those three flags the same values. -/
theorem C13_flag_depends_on_own_switch_witness :
    (features.all_switches_off "NECROSIS_CHEAT_SYSTEM_ENABLED"
        = features.define "NECROSIS_DEBUG_OVERLAY_ENABLED" "ON" features.all_switches_off
            "NECROSIS_CHEAT_SYSTEM_ENABLED" ∧
      features.cheat_system_enabled features.all_switches_off
        = features.cheat_system_enabled
            (features.define "NECROSIS_DEBUG_OVERLAY_ENABLED" "ON" features.all_switches_off)) ∧
    (features.all_switches_off "NECROSIS_CONSOLE_COMMANDS_ENABLED"
        = features.define "NECROSIS_DEBUG_OVERLAY_ENABLED" "ON" features.all_switches_off
            "NECROSIS_CONSOLE_COMMANDS_ENABLED" ∧
      features.console_commands_enabled features.all_switches_off
        = features.console_commands_enabled
            (features.define "NECROSIS_DEBUG_OVERLAY_ENABLED" "ON" features.all_switches_off)) ∧
    (features.all_switches_off "NECROSIS_PERFORMANCE_METRICS_ENABLED"
        = features.define "NECROSIS_DEBUG_OVERLAY_ENABLED" "ON" features.all_switches_off
            "NECROSIS_PERFORMANCE_METRICS_ENABLED" ∧
      features.performance_metrics_enabled features.all_switches_off
        = features.performance_metrics_enabled
            (features.define "NECROSIS_DEBUG_OVERLAY_ENABLED" "ON" features.all_switches_off)) :=
  ⟨⟨by decide,
    (C13_flag_depends_on_own_switch features.all_switches_off
      (features.define "NECROSIS_DEBUG_OVERLAY_ENABLED" "ON" features.all_switches_off)).1
      (by decide)⟩,
   ⟨by decide,
    (C13_flag_depends_on_own_switch features.all_switches_off
      (features.define "NECROSIS_DEBUG_OVERLAY_ENABLED" "ON" features.all_switches_off)).2.2.1
      (by decide)⟩,
   ⟨by decide,
    (C13_flag_depends_on_own_switch features.all_switches_off
      (features.define "NECROSIS_DEBUG_OVERLAY_ENABLED" "ON" features.all_switches_off)).2.2.2
      (by decide)⟩⟩

end necrosis

namespace Necrosis

/-! ### The stream operations on a line with a first token -/

theorem skipws_append_of_isspace (ws l : List Char) (h : ∀ c ∈ ws, isspace c = true) :
    istringstream.skipws (ws ++ l) = istringstream.skipws l := by
  induction ws with
  | nil => rfl
  | cons c cs ih =>
    have hc : isspace c = true := h c (List.mem_cons_self c cs)
    have hcs : ∀ d ∈ cs, isspace d = true := fun d hd => h d (List.mem_cons_of_mem c hd)
    simp [istringstream.skipws, hc, ih hcs]

theorem skipws_of_not_isspace (c : Char) (cs : List Char) (h : isspace c = false) :
    istringstream.skipws (c :: cs) = c :: cs := by
  simp [istringstream.skipws, h]

theorem skipws_eq_nil_of_isspace (l : List Char) (h : ∀ c ∈ l, isspace c = true) :
    istringstream.skipws l = [] := by
  have := skipws_append_of_isspace l [] h
  simpa [istringstream.skipws] using this

theorem read_word_append (t rest : List Char) (ht : ∀ c ∈ t, isspace c = false)
    (hrest : rest.head?.all isspace = true) :
    istringstream.read_word (t ++ rest) = (t, rest) := by
  induction t with
  | nil =>
    cases rest with
    | nil => rfl
    | cons c r =>
      have hc : isspace c = true := by simpa using hrest
      simp [istringstream.read_word, hc]
  | cons c cs ih =>
    have hc : isspace c = false := ht c (List.mem_cons_self c cs)
    have hcs : ∀ d ∈ cs, isspace d = false := fun d hd => ht d (List.mem_cons_of_mem c hd)
    simp [istringstream.read_word, hc, ih hcs]

theorem read_word_no_isspace (l : List Char) :
    ∀ c ∈ (istringstream.read_word l).1, isspace c = false := by
  induction l with
  | nil => simp [istringstream.read_word]
  | cons d ds ih =>
    intro c hc
    by_cases hd : isspace d = true
    · simp [istringstream.read_word, hd] at hc
    · have hd2 : isspace d = false := by simpa using hd
      simp only [istringstream.read_word, hd2, Bool.false_eq_true, if_false,
        List.mem_cons] at hc
      rcases hc with rfl | hc
      · exact hd2
      · exact ih c hc

theorem read_line_fst (l : List Char) :
    (istringstream.read_line l).1 = text_up_to_newline l := by
  induction l with
  | nil => rfl
  | cons c cs ih =>
    by_cases hc : c = '\n'
    · subst hc
      simp [istringstream.read_line, text_up_to_newline]
    · have hne : (c != '\n') = true := by simpa using hc
      simp only [istringstream.read_line, hc, if_false]
      simp only [text_up_to_newline, List.takeWhile_cons, hne, if_true]
      rw [← text_up_to_newline, ← ih]

theorem strip_leading_space (l : List Char) :
    (if (!empty (String.mk l) && front_is (String.mk l) ' ') = true
      then substr (String.mk l) 1 else String.mk l)
      = String.mk (remove_one_leading_space l) := by
  cases l with
  | nil => rfl
  | cons c cs =>
    by_cases hc : c = ' '
    · subst hc
      simp [empty, front_is, substr, remove_one_leading_space]
    · simp [empty, front_is, substr, remove_one_leading_space, hc]

/-- On a line with a first token, the parsing part of `ProcessCommand` yields
that token as the command and the expected arguments. -/
theorem parse_command_of_first_token (input : String) (ws t rest : List Char)
    (h : first_token_split input.data ws t rest) :
    CheatSystem.parse_command input = (String.mk t, expected_args rest) := by
  obtain ⟨hin, hws, hne, ht, hrest⟩ := h
  cases t with
  | nil => exact absurd rfl hne
  | cons c cs =>
    have hc : isspace c = false := ht c (List.mem_cons_self c cs)
    have hskip : istringstream.skipws input.data = c :: (cs ++ rest) := by
      rw [hin, List.append_assoc, skipws_append_of_isspace ws _ hws]
      exact skipws_of_not_isspace c (cs ++ rest) hc
    have hword : istringstream.read_word (c :: (cs ++ rest)) = (c :: cs, rest) :=
      read_word_append (c :: cs) rest ht hrest
    have hextract : (istringstream.init input).extract ""
        = (String.mk (c :: cs), istringstream.mk rest rest.isEmpty false) := by
      simp [istringstream.extract, istringstream.init, istringstream.good, hskip, hword]
    unfold CheatSystem.parse_command
    simp only [hextract]
    cases rest with
    | nil => rfl
    | cons d ds =>
      have hget : (istringstream.mk (d :: ds) (d :: ds).isEmpty false).getline ""
          = (String.mk (text_up_to_newline (d :: ds)),
              istringstream.mk (istringstream.read_line (d :: ds)).2.1
                (istringstream.read_line (d :: ds)).2.2
                ((istringstream.read_line (d :: ds)).1.isEmpty
                  && (istringstream.read_line (d :: ds)).2.2)) := by
        simp [istringstream.getline, istringstream.good, read_line_fst]
      simp only [hget]
      rw [strip_leading_space]
      rfl

/-! ### Dispatch -/

/-- On a line whose first token is registered, `ProcessCommand` announces the
command and runs its handler on the expected arguments; the command table is
as before. -/
theorem ProcessCommand_of_registered {σ : Type} (self : CheatSystem σ) (w : World σ)
    (input : String) (ws t rest : List Char) (callback : CheatCommand σ)
    (h : first_token_split input.data ws t rest)
    (hreg : self.cheat_commands (String.mk t) = some callback) :
    CheatSystem.ProcessCommand input (self, w)
      = ((), (self,
          (callback (expected_args rest)
            (print ("[CHEAT] Executing: " ++ String.mk t ++ " with args: \x27"
              ++ expected_args rest ++ "\x27\n") w)).2)) := by
  have hparse := parse_command_of_first_token input ws t rest h
  have hne : empty input = false := by
    obtain ⟨hin, _, hne, _, _⟩ := h
    cases ht : t with
    | nil => exact absurd ht hne
    | cons c cs =>
      rw [ht] at hin
      cases hws : ws <;> simp [empty, hin, hws]
  simp [CheatSystem.ProcessCommand, hne, hparse, hreg]

/-- On a line whose first token is not registered, `ProcessCommand` reports
the unknown command and does nothing else. -/
theorem ProcessCommand_of_unregistered {σ : Type} (self : CheatSystem σ) (w : World σ)
    (input : String) (ws t rest : List Char)
    (h : first_token_split input.data ws t rest)
    (hreg : self.cheat_commands (String.mk t) = none) :
    CheatSystem.ProcessCommand input (self, w)
      = ((), (self, print ("[CHEAT] Unknown command: " ++ String.mk t ++ "\n") w)) := by
  have hparse := parse_command_of_first_token input ws t rest h
  have hne : empty input = false := by
    obtain ⟨hin, _, hne, _, _⟩ := h
    cases ht : t with
    | nil => exact absurd ht hne
    | cons c cs =>
      rw [ht] at hin
      cases hws : ws <;> simp [empty, hin, hws]
  simp [CheatSystem.ProcessCommand, hne, hparse, hreg]

/-- C14: for every command table and every input line whose first
whitespace-delimited token `t` is registered with handler `callback`,
`ProcessCommand` leaves the table as it is, announces the command on
`std::cout`, and runs `callback` on the text that follows `t` up to the next
newline or the end of the input, less one leading space if there is one; with
every handler behind a log, the log gains exactly one entry, `t` with those
arguments, so the handler of `t` runs exactly once and no other handler
runs. -/
theorem C14_dispatch_by_first_token {σ : Type} (self : CheatSystem σ) (w : World σ)
    (input : String) (ws t rest : List Char) (callback : CheatCommand σ)
    (h : first_token_split input.data ws t rest)
    (hreg : self.cheat_commands (String.mk t) = some callback)
    (out : String) (log : List (String × String)) (s : σ) :
    CheatSystem.ProcessCommand input (self, w)
      = ((), (self,
          (callback (expected_args rest)
            (print ("[CHEAT] Executing: " ++ String.mk t ++ " with args: \x27"
              ++ expected_args rest ++ "\x27\n") w)).2)) ∧
    (CheatSystem.ProcessCommand input (traced_system self, World.mk out (log, s))).2.2.rest.1
      = log ++ [(String.mk t, expected_args rest)] := by
  refine ⟨ProcessCommand_of_registered self w input ws t rest callback h hreg, ?_⟩
  have hreg2 : (traced_system self).cheat_commands (String.mk t)
      = some (traced_command (String.mk t) callback) := by
    simp [traced_system, hreg]
  rw [ProcessCommand_of_registered (traced_system self) (World.mk out (log, s)) input ws t rest
    (traced_command (String.mk t) callback) h hreg2]
  rfl

/-- Witness for C14: the two commands main.cpp processes on its own cheat
system: `spawn_item sword` passes `sword` to the handler of `spawn_item`, and
`god_mode` passes the empty string to the handler of `god_mode`. -/
theorem C14_dispatch_by_first_token_witness :
    (first_token_split "spawn_item sword".data [] "spawn_item".data " sword".data ∧
      (CheatSystem.ProcessCommand "spawn_item sword"
          (traced_system (main_cheat_system (World.mk "" ())).1,
            World.mk "" ([], ()))).2.2.rest.1
        = [] ++ [("spawn_item", "sword")]) ∧
    (first_token_split "god_mode".data [] "god_mode".data [] ∧
      (CheatSystem.ProcessCommand "god_mode"
          (traced_system (main_cheat_system (World.mk "" ())).1,
            World.mk "" ([], ()))).2.2.rest.1
        = [] ++ [("god_mode", "")]) :=
  ⟨⟨by decide,
    (C14_dispatch_by_first_token (main_cheat_system (World.mk "" ())).1 (World.mk "" ())
      "spawn_item sword" [] "spawn_item".data " sword".data spawn_item (by decide) rfl
      "" [] ()).2⟩,
   ⟨by decide,
    (C14_dispatch_by_first_token (main_cheat_system (World.mk "" ())).1 (World.mk "" ())
      "god_mode" [] "god_mode".data [] god_mode (by decide) rfl "" [] ()).2⟩⟩

/-- C15: for every name `command`, the empty name and names with whitespace
included, `RegisterCheatCommand(command, callback)` binds `command` to
`callback` and leaves the handler of every other name as it was (its only
other effect is one line on `std::cout`); a later registration of `callback2`
under the same name gives the very table that registering `callback2` alone
gives, so the earlier handler is gone; and on every line whose first token is
`command`, `ProcessCommand` runs `callback` after the one registration and
`callback2` after the second. -/
theorem C15_register_binds_command {σ : Type} (self : CheatSystem σ) (w w2 : World σ)
    (command : String) (callback callback2 : CheatCommand σ) :
    (CheatSystem.RegisterCheatCommand command callback (self, w)).2.1.cheat_commands command
      = some callback ∧
    (∀ k : String, k ≠ command →
      (CheatSystem.RegisterCheatCommand command callback (self, w)).2.1.cheat_commands k
        = self.cheat_commands k) ∧
    (CheatSystem.RegisterCheatCommand command callback (self, w)).2.2
      = print ("[CHEAT] Registered command: " ++ command ++ "\n") w ∧
    (CheatSystem.RegisterCheatCommand command callback2
        (CheatSystem.RegisterCheatCommand command callback (self, w)).2).2.1
      = (CheatSystem.RegisterCheatCommand command callback2 (self, w)).2.1 ∧
    (∀ (input : String) (ws rest : List Char),
      first_token_split input.data ws command.data rest →
      CheatSystem.ProcessCommand input
          ((CheatSystem.RegisterCheatCommand command callback (self, w)).2.1, w2)
        = ((), ((CheatSystem.RegisterCheatCommand command callback (self, w)).2.1,
            (callback (expected_args rest)
              (print ("[CHEAT] Executing: " ++ command ++ " with args: \x27"
                ++ expected_args rest ++ "\x27\n") w2)).2)) ∧
      CheatSystem.ProcessCommand input
          ((CheatSystem.RegisterCheatCommand command callback2
            (CheatSystem.RegisterCheatCommand command callback (self, w)).2).2.1, w2)
        = ((), ((CheatSystem.RegisterCheatCommand command callback2
            (CheatSystem.RegisterCheatCommand command callback (self, w)).2).2.1,
            (callback2 (expected_args rest)
              (print ("[CHEAT] Executing: " ++ command ++ " with args: \x27"
                ++ expected_args rest ++ "\x27\n") w2)).2))) := by
  refine ⟨?_, ?_, rfl, ?_, ?_⟩
  · simp [CheatSystem.RegisterCheatCommand]
  · intro k hk
    simp [CheatSystem.RegisterCheatCommand, hk]
  · simp only [CheatSystem.RegisterCheatCommand]
    congr 1
    funext j
    by_cases hj : j = command <;> simp [hj]
  · intro input ws rest h
    exact ⟨ProcessCommand_of_registered _ w2 input ws command.data rest callback h
        (by simp [CheatSystem.RegisterCheatCommand]),
      ProcessCommand_of_registered _ w2 input ws command.data rest callback2 h
        (by simp [CheatSystem.RegisterCheatCommand])⟩

/-- Witness for C15: on the cheat system of main.cpp, `god_mode` is registered
again with the handler of `spawn_item`: the other name `spawn_item` keeps its
handler, and the line `god_mode now`, whose first token is `god_mode`, runs
the newly registered handler. -/
theorem C15_register_binds_command_witness :
    ("spawn_item" ≠ "god_mode" ∧
      (CheatSystem.RegisterCheatCommand "god_mode" spawn_item
          (main_cheat_system (World.mk "" ()))).2.1.cheat_commands "spawn_item"
        = (main_cheat_system (World.mk "" ())).1.cheat_commands "spawn_item") ∧
    (first_token_split "god_mode now".data [] "god_mode".data " now".data ∧
      CheatSystem.ProcessCommand "god_mode now"
          ((CheatSystem.RegisterCheatCommand "god_mode" spawn_item
            (main_cheat_system (World.mk "" ()))).2.1, World.mk "" ())
        = ((), ((CheatSystem.RegisterCheatCommand "god_mode" spawn_item
              (main_cheat_system (World.mk "" ()))).2.1,
            (spawn_item (expected_args " now".data)
              (print ("[CHEAT] Executing: " ++ "god_mode" ++ " with args: \x27"
                ++ expected_args " now".data ++ "\x27\n") (World.mk "" ()))).2))) :=
  ⟨⟨by decide,
    (C15_register_binds_command (main_cheat_system (World.mk "" ())).1
      (main_cheat_system (World.mk "" ())).2 (World.mk "" ()) "god_mode" spawn_item
      god_mode).2.1 "spawn_item" (by decide)⟩,
   ⟨by decide,
    ((C15_register_binds_command (main_cheat_system (World.mk "" ())).1
      (main_cheat_system (World.mk "" ())).2 (World.mk "" ()) "god_mode" spawn_item
      god_mode).2.2.2.2 "god_mode now" [] " now".data (by decide)).1⟩⟩

/-- C16: for every command table and every input line whose first
whitespace-delimited token `t` is not registered, `ProcessCommand` leaves
the table and the program state as they are and writes only the report of the
unknown command to `std::cout`; with every handler behind a log, the log is
unchanged, so no handler runs. -/
theorem C16_unknown_command_reported {σ : Type} (self : CheatSystem σ) (w : World σ)
    (input : String) (ws t rest : List Char)
    (h : first_token_split input.data ws t rest)
    (hreg : self.cheat_commands (String.mk t) = none)
    (out : String) (log : List (String × String)) (s : σ) :
    CheatSystem.ProcessCommand input (self, w)
      = ((), (self, print ("[CHEAT] Unknown command: " ++ String.mk t ++ "\n") w)) ∧
    (CheatSystem.ProcessCommand input (traced_system self, World.mk out (log, s))).2.2.rest
      = (log, s) := by
  refine ⟨ProcessCommand_of_unregistered self w input ws t rest h hreg, ?_⟩
  have hreg2 : (traced_system self).cheat_commands (String.mk t) = none := by
    simp [traced_system, hreg]
  rw [ProcessCommand_of_unregistered (traced_system self) (World.mk out (log, s)) input ws t
    rest h hreg2]
  rfl

/-- Witness for C16: the line `fly high` on the cheat system of main.cpp,
where `fly` is not registered. -/
theorem C16_unknown_command_reported_witness :
    first_token_split "fly high".data [] "fly".data " high".data ∧
    (main_cheat_system (World.mk "" ())).1.cheat_commands (String.mk "fly".data) = none ∧
    CheatSystem.ProcessCommand "fly high" ((main_cheat_system (World.mk "" ())).1, World.mk "" ())
      = ((), ((main_cheat_system (World.mk "" ())).1,
          print ("[CHEAT] Unknown command: " ++ String.mk "fly".data ++ "\n")
            (World.mk "" ()))) :=
  ⟨by decide, rfl,
   (C16_unknown_command_reported (main_cheat_system (World.mk "" ())).1 (World.mk "" ())
      "fly high" [] "fly".data " high".data (by decide) rfl "" [] ()).1⟩

/-- C17: for every command table, `ProcessCommand("")` returns with the
table, `std::cout` and the program state exactly as they were, also right
after a handler has been registered under the empty name, and with that
handler behind a log the log is unchanged. -/
theorem C17_empty_input_ignored {σ : Type} (self : CheatSystem σ) (w w0 : World σ)
    (callback : CheatCommand σ) (out : String) (log : List (String × String)) (s : σ) :
    CheatSystem.ProcessCommand "" (self, w) = ((), (self, w)) ∧
    CheatSystem.ProcessCommand ""
        ((CheatSystem.RegisterCheatCommand "" callback (self, w0)).2.1, w)
      = ((), ((CheatSystem.RegisterCheatCommand "" callback (self, w0)).2.1, w)) ∧
    (CheatSystem.ProcessCommand ""
        (traced_system (CheatSystem.RegisterCheatCommand "" callback (self, w0)).2.1,
          World.mk out (log, s))).2.2
      = World.mk out (log, s) := by
  refine ⟨rfl, rfl, rfl⟩

/-- On a line made only of whitespace, extraction fails, and the parsing part
of `ProcessCommand` yields the empty command and empty arguments. -/
theorem parse_command_of_whitespace (input : String)
    (hws : ∀ c ∈ input.data, isspace c = true) :
    CheatSystem.parse_command input = ("", "") := by
  have hskip : istringstream.skipws input.data = [] := skipws_eq_nil_of_isspace _ hws
  have hextract : (istringstream.init input).extract ""
      = ("", istringstream.mk [] true true) := by
    simp [istringstream.extract, istringstream.init, istringstream.good, hskip]
  unfold CheatSystem.parse_command
  simp only [hextract]
  rfl

/-- The command that `ProcessCommand` looks up never contains whitespace. -/
theorem parse_command_no_isspace (input : String) :
    ∀ c ∈ (CheatSystem.parse_command input).1.data, isspace c = false := by
  intro c hc
  unfold CheatSystem.parse_command at hc
  simp only [istringstream.extract, istringstream.init, istringstream.good] at hc
  cases hskip : istringstream.skipws input.data with
  | nil => simp [hskip] at hc
  | cons d ds =>
    simp only [hskip] at hc
    exact read_word_no_isspace (d :: ds) c (by simpa using hc)

/-- With every handler behind a log, one `ProcessCommand` adds nothing to the
log or exactly one entry, under the command it looked up. -/
theorem ProcessCommand_traced_log {σ : Type} (self : CheatSystem σ) (input out : String)
    (log : List (String × String)) (s : σ) :
    (CheatSystem.ProcessCommand input (traced_system self, World.mk out (log, s))).2.2.rest.1
        = log ∨
    (CheatSystem.ProcessCommand input (traced_system self, World.mk out (log, s))).2.2.rest.1
        = log ++ [((CheatSystem.parse_command input).1, (CheatSystem.parse_command input).2)] := by
  unfold CheatSystem.ProcessCommand
  by_cases he : empty input = true
  · left
    simp [he]
  · cases hl : self.cheat_commands (CheatSystem.parse_command input).1 with
    | none =>
      left
      simp [he, traced_system, hl, print]
    | some cb =>
      right
      simp [he, traced_system, hl, print, traced_command]

/-- C18: for every non-empty input made only of whitespace characters,
`ProcessCommand` looks up the empty command name with empty arguments: when a
handler is registered under the empty name it is announced and run on the
empty string, and otherwise no handler runs and an unknown command with an
empty name is reported. -/
theorem C18_whitespace_input_looks_up_empty {σ : Type} (self : CheatSystem σ) (w : World σ)
    (input : String) (hne : input.data ≠ [])
    (hws : ∀ c ∈ input.data, isspace c = true) :
    CheatSystem.parse_command input = ("", "") ∧
    (∀ callback : CheatCommand σ, self.cheat_commands "" = some callback →
      CheatSystem.ProcessCommand input (self, w)
        = ((), (self,
            (callback "" (print "[CHEAT] Executing:  with args: \x27\x27\n" w)).2))) ∧
    (self.cheat_commands "" = none →
      CheatSystem.ProcessCommand input (self, w)
        = ((), (self, print "[CHEAT] Unknown command: \n" w))) := by
  have hparse := parse_command_of_whitespace input hws
  have hempty : empty input = false := by
    cases hd : input.data with
    | nil => exact absurd hd hne
    | cons c cs => simp [empty, hd]
  refine ⟨hparse, ?_, ?_⟩
  · intro callback hreg
    simp only [CheatSystem.ProcessCommand, hempty, hparse, hreg, Bool.false_eq_true, if_false]
    rfl
  · intro hreg
    simp only [CheatSystem.ProcessCommand, hempty, hparse, hreg, Bool.false_eq_true, if_false]
    rfl

/-- Witness for C18: the line of a space, a tab and a newline, first on a
cheat system with the handler of `god_mode` registered under the empty name,
then on the cheat system of main.cpp, which has no such handler. -/
theorem C18_whitespace_input_looks_up_empty_witness :
    " \t\n".data ≠ [] ∧
    (∀ c ∈ " \t\n".data, isspace c = true) ∧
    (CheatSystem.RegisterCheatCommand "" god_mode
        (CheatSystem.init, World.mk "" ())).2.1.cheat_commands "" = some god_mode ∧
    CheatSystem.ProcessCommand " \t\n"
        ((CheatSystem.RegisterCheatCommand "" god_mode (CheatSystem.init, World.mk "" ())).2.1,
          World.mk "" ())
      = ((), ((CheatSystem.RegisterCheatCommand "" god_mode
            (CheatSystem.init, World.mk "" ())).2.1,
          (god_mode "" (print "[CHEAT] Executing:  with args: \x27\x27\n"
            (World.mk "" ()))).2)) ∧
    (main_cheat_system (World.mk "" ())).1.cheat_commands "" = none ∧
    CheatSystem.ProcessCommand " \t\n" ((main_cheat_system (World.mk "" ())).1, World.mk "" ())
      = ((), ((main_cheat_system (World.mk "" ())).1,
          print "[CHEAT] Unknown command: \n" (World.mk "" ()))) :=
  ⟨by decide, by decide, rfl,
   (C18_whitespace_input_looks_up_empty
      (CheatSystem.RegisterCheatCommand "" god_mode (CheatSystem.init, World.mk "" ())).2.1
      (World.mk "" ()) " \t\n" (by decide) (by decide)).2.1 god_mode rfl,
   rfl,
   (C18_whitespace_input_looks_up_empty (main_cheat_system (World.mk "" ())).1
      (World.mk "" ()) " \t\n" (by decide) (by decide)).2.2 rfl⟩

/-- C19: a handler registered under a name that contains a whitespace
character is never dispatched: for every input, the command `ProcessCommand`
looks up contains no whitespace and so is not that name; what
`ProcessCommand` does to `std::cout` and the program state is the same
whichever handler is registered under that name; and with every handler
behind a log, any entry the log has afterwards was there before or is under
another name. -/
theorem C19_whitespace_name_never_dispatched {σ : Type} (self : CheatSystem σ)
    (w0 w : World σ) (name input : String) (callback callback2 : CheatCommand σ)
    (hname : ∃ c ∈ name.data, isspace c = true)
    (out : String) (log : List (String × String)) (s : σ) :
    (∀ c ∈ (CheatSystem.parse_command input).1.data, isspace c = false) ∧
    (CheatSystem.parse_command input).1 ≠ name ∧
    (CheatSystem.ProcessCommand input
        ((CheatSystem.RegisterCheatCommand name callback (self, w0)).2.1, w)).2.2
      = (CheatSystem.ProcessCommand input
        ((CheatSystem.RegisterCheatCommand name callback2 (self, w0)).2.1, w)).2.2 ∧
    (∀ e ∈ (CheatSystem.ProcessCommand input
        (traced_system (CheatSystem.RegisterCheatCommand name callback (self, w0)).2.1,
          World.mk out (log, s))).2.2.rest.1, e ∈ log ∨ e.1 ≠ name) := by
  have hnows := parse_command_no_isspace input
  have hneq : (CheatSystem.parse_command input).1 ≠ name := by
    intro heq
    obtain ⟨c, hc, hsp⟩ := hname
    rw [← heq] at hc
    have := hnows c hc
    rw [hsp] at this
    exact Bool.noConfusion this
  refine ⟨hnows, hneq, ?_, ?_⟩
  · simp only [CheatSystem.ProcessCommand, CheatSystem.RegisterCheatCommand, hneq, if_false]
    by_cases he : empty input = true
    · simp [he]
    · cases hl : self.cheat_commands (CheatSystem.parse_command input).1 <;> simp [he]
  · intro e he
    rcases ProcessCommand_traced_log
      (CheatSystem.RegisterCheatCommand name callback (self, w0)).2.1 input out log s
      with hlog | hlog
    · rw [hlog] at he
      exact Or.inl he
    · rw [hlog] at he
      rcases List.mem_append.mp he with hmem | hmem
      · exact Or.inl hmem
      · right
        have hEq : e = ((CheatSystem.parse_command input).1,
            (CheatSystem.parse_command input).2) := by simpa using hmem
        rw [hEq]
        exact hneq

/-- Witness for C19: the handler of `god_mode` registered under the name
`god mode`, which contains a space, and the line `god mode`: the command
looked up is `god`, and the log only gains an entry if `god` is registered. -/
theorem C19_whitespace_name_never_dispatched_witness :
    (∃ c ∈ "god mode".data, isspace c = true) ∧
    (CheatSystem.parse_command "god mode").1 ≠ "god mode" ∧
    (CheatSystem.ProcessCommand "god mode"
        ((CheatSystem.RegisterCheatCommand "god mode" god_mode
          (CheatSystem.init, World.mk "" ())).2.1, World.mk "" ())).2.2
      = (CheatSystem.ProcessCommand "god mode"
        ((CheatSystem.RegisterCheatCommand "god mode" spawn_item
          (CheatSystem.init, World.mk "" ())).2.1, World.mk "" ())).2.2 :=
  ⟨by decide,
   (C19_whitespace_name_never_dispatched CheatSystem.init (World.mk "" ()) (World.mk "" ())
      "god mode" "god mode" god_mode spawn_item (by decide) "" [] ()).2.1,
   (C19_whitespace_name_never_dispatched CheatSystem.init (World.mk "" ()) (World.mk "" ())
      "god mode" "god mode" god_mode spawn_item (by decide) "" [] ()).2.2.1⟩

end Necrosis
